import Mathlib

/-!
# Verification of the burp-ui asynchronous task lifecycle module

A shallow embedding of `burpui/api/tasks.py`: the task status / cancel
endpoints (`TaskStatus`), the artifact delivery endpoint (`TaskGetFile`,
including the remote length-prefixed relay `stream_file`), the tree fetch
endpoint (`TaskDoBrowseAll`) and the client-deletion result endpoint
(`TaskDeletedClient`), together with theorems settling the specification
claims about them.

Python values are modelled as follows: byte strings are `List Nat`,
`None`-able values are `Option`, Python truthiness of an optional string is
`pyTruthy` (both `None` and the empty string are falsy), machine behaviour
such as an unhandled `AttributeError` is an explicit outcome constructor.
-/

namespace BurpUI

/-- Python truthiness of an optional string: `None` and `""` are falsy. -/
def pyTruthy : Option String → Bool
  | none => false
  | some s => !s.isEmpty

/-- Python `str()` applied to an optional string: `None` renders as "None". -/
def pyStrOptS : Option String → String
  | none => "None"
  | some s => s

/-! ## Task model

Celery's `AsyncResult(task_id)` exposes a state and an optional result
mapping.  A task id that was never submitted yields state `PENDING` and
result `None`.  The result mapping produced by the burp-ui executors
(`perform_restore`, `load_all_tree`, `delete_client`) carries the fields
read by the endpoints. -/

inductive TaskState where
  | pending
  | running
  | success
  | failure
deriving DecidableEq, Repr

/-- Rendering used by `"{}".format(task.state)`. -/
def TaskState.str : TaskState → String
  | .pending => "PENDING"
  | .running => "RUNNING"
  | .success => "SUCCESS"
  | .failure => "FAILURE"

/-- The `kwargs` sub-mapping echoed by the `delete_client` executor. -/
structure DeleteKwargs where
  delcert : Bool
  revoke : Bool
  keepconf : Bool
  delete : Bool
  template : Bool
deriving DecidableEq, Repr

/-- The structured result mapping of a terminal task, as read via
`task.result.get(...)` by the endpoints.  `pystr` models the Python
`str()` rendering of the whole result object (used by the 502 path of the
status endpoint). -/
structure TaskResult where
  user : Option String
  server : Option String
  path : Option String
  filename : Option String
  error : Option String
  admin : Bool
  tree : Option String
  res : Option String
  client : Option String
  kwargs : Option DeleteKwargs
  pystr : String
deriving DecidableEq, Repr

/-- `str(task.result)`: `None` renders as "None", otherwise the object's
string rendering. -/
def pyStrResult : Option TaskResult → String
  | none => "None"
  | some r => r.pystr

/-! ## Ownership / authorization checks

Each endpoint contains its own inline denial condition; we transcribe each
occurrence separately so their (non-)uniformity can be settled. -/

/-- Denial condition of `TaskStatus.delete` (tasks.py lines 144-147):
`(current_user.name != user or (dst_server and dst_server != server)) and
not current_user.acl.is_admin()`. -/
def cancel_denied (callerName : String) (isAdmin : Bool)
    (user dstServer server : Option String) : Bool :=
  ((some callerName != user) || (pyTruthy dstServer && dstServer != server))
    && !isAdmin

/-- Denial condition of `TaskGetFile.get` (tasks.py lines 204-208), textually
identical to the cancel check. -/
def fetch_denied (callerName : String) (isAdmin : Bool)
    (user dstServer server : Option String) : Bool :=
  ((some callerName != user) || (pyTruthy dstServer && dstServer != server))
    && !isAdmin

/-- Denial condition of `TaskDoBrowseAll.get` (tasks.py lines 1062-1063):
`current_user.name != user or (dst_server and dst_server != server)` —
note: no administrator bypass. -/
def browse_denied (callerName : String)
    (user dstServer server : Option String) : Bool :=
  (some callerName != user) || (pyTruthy dstServer && dstServer != server)

/-- Denial condition of `TaskDeletedClient.get` (tasks.py line 605), same
shape as the browse check (no administrator bypass). -/
def deleted_denied (callerName : String)
    (user dstServer server : Option String) : Bool :=
  (some callerName != user) || (pyTruthy dstServer && dstServer != server)

/-- The authorization predicate as the specification words it (section 4.3):
`authorized(caller, task_owner, caller_target_node, task_origin_node,
is_admin)` is true iff `caller == task_owner` AND (`caller_target_node` is
unset OR equals `task_origin_node`), OR `is_admin`. -/
def spec_authorized (caller taskOwner : String)
    (callerTargetNode taskOriginNode : Option String) (isAdmin : Bool) : Bool :=
  (caller == taskOwner
      && (callerTargetNode.isNone || callerTargetNode == taskOriginNode))
    || isAdmin

/-! ## Byte packing

`struct.pack("!Q", n)` / `struct.unpack("!Q", buf)`: 8-byte unsigned
big-endian integers. -/

/-- `struct.pack("!Q", n)`: the 8 big-endian base-256 digits of `n`. -/
def pack_uQ (n : Nat) : List Nat :=
  [n / 2 ^ 56 % 256, n / 2 ^ 48 % 256, n / 2 ^ 40 % 256, n / 2 ^ 32 % 256,
   n / 2 ^ 24 % 256, n / 2 ^ 16 % 256, n / 2 ^ 8 % 256, n % 256]

/-- `struct.unpack("!Q", bytes)`: big-endian base-256 value of the digits. -/
def unpack_uQ (bytes : List Nat) : Nat :=
  bytes.foldl (fun acc b => acc * 256 + b) 0

/-! ## Remote relay stream (`TaskGetFile.stream_file`)

The socket is modelled by a trace of events, one per loop iteration: either
the 5-second `select` wait reports no readable data (`timeout`), or it
reports readable data and the following `recv` returns a chunk (`data`,
possibly empty — a zero-byte `recv` is retried by the `continue` branch).
Every observable action of the loop is recorded as an operation so that
ordering properties (wait-before-read, handshake-after-payload) are
statable. -/

inductive SockEvent where
  | timeout
  | data (chunk : List Nat)
deriving DecidableEq, Repr

inductive StreamOp where
  | select (timeoutSecs : Nat)
  | recv (requested remaining got : Nat)
  | yield (chunk : List Nat)
  | sendall (bytes : List Nat)
  | close
deriving DecidableEq, Repr

inductive StreamOutcome where
  /-- Normal termination: all payload chunks yielded, then the handshake is
  sent and the socket closed. -/
  | done (chunks : List (List Nat))
  /-- `self.abort(code, msg)` raised from inside the generator. -/
  | aborted (code : Nat) (msg : String)
  /-- Modelling artefact: the event trace ended while the loop still waited
  for data (the real generator would block on `select` again). -/
  | starved
deriving DecidableEq, Repr

structure StreamRun where
  outcome : StreamOutcome
  ops : List StreamOp
deriving DecidableEq, Repr

/-- The body of the `stream(sock, size)` generator (tasks.py lines 260-282):

```
while received < size:
    buf = b""
    r, _, _ = select.select([sock], [], [], 5)
    if not r:
        self.abort(500, "Socket timed-out")
    buf += sock.recv(bsize)
    if not buf:
        continue
    received += len(buf)
    yield buf
sock.sendall(struct.pack("!Q", 2))
sock.sendall(b"RE")
sock.close()
```

`bsize` is fixed before the loop and never updated inside it. -/
def streamLoop (bsize size : Nat) (events : List SockEvent)
    (received : Nat) : StreamRun :=
  if received < size then
    match events with
    | [] => ⟨.starved, []⟩
    | .timeout :: _ => ⟨.aborted 500 "Socket timed-out", [.select 5]⟩
    | .data chunk :: rest =>
      if chunk.isEmpty then
        let tail := streamLoop bsize size rest received
        ⟨tail.outcome,
         .select 5 :: .recv bsize (size - received) chunk.length :: tail.ops⟩
      else
        let tail := streamLoop bsize size rest (received + chunk.length)
        ⟨(match tail.outcome with
           | .done chunks => .done (chunk :: chunks)
           | o => o),
         .select 5 :: .recv bsize (size - received) chunk.length
           :: .yield chunk :: tail.ops⟩
  else
    ⟨.done [], [.sendall (pack_uQ 2), .sendall [0x52, 0x45], .close]⟩

/-- The `stream(sock, size)` generator including its chunk-size set-up
(`bsize = 1024; received = 0; if size < bsize: bsize = size`). -/
def stream (size : Nat) (events : List SockEvent) : StreamRun :=
  streamLoop (if size < 1024 then size else 1024) size events 0

/-- The `(requested, remaining)` pair of every `recv` call of a run, in
order. -/
def recvLog (ops : List StreamOp) : List (Nat × Nat) :=
  ops.filterMap fun op => match op with
    | .recv req remaining _ => some (req, remaining)
    | _ => none

/-- Total number of payload bytes yielded to the HTTP caller by a run. -/
def yieldedBytes (ops : List StreamOp) : Nat :=
  (ops.filterMap fun op => match op with
    | .yield chunk => some chunk.length
    | _ => none).sum

/-- Every `recv` in the operation list is immediately preceded by a
5-second-bounded `select` wait. -/
def recvPrecededBySelect : List StreamOp → Bool
  | [] => true
  | .select t :: .recv _ _ _ :: rest =>
    decide (t = 5) && recvPrecededBySelect rest
  | .recv _ _ _ :: _ => false
  | _ :: rest => recvPrecededBySelect rest

/-- Every readability wait in the operation list is bounded at 5 seconds. -/
def selectsBounded (ops : List StreamOp) : Bool :=
  ops.all fun op => match op with
    | .select t => decide (t = 5)
    | _ => true

/-- Total number of payload bytes a socket event trace can deliver. -/
def dataTotal (events : List SockEvent) : Nat :=
  (events.filterMap fun e => match e with
    | .data chunk => some chunk.length
    | _ => none).sum

/-- The operation list produced by an uninterrupted run that consumes the
given chunks from position `received` and then performs the handshake. -/
def buildOps (bsize size received : Nat) : List (List Nat) → List StreamOp
  | [] => [.sendall (pack_uQ 2), .sendall [0x52, 0x45], .close]
  | c :: rest =>
    .select 5 :: .recv bsize (size - received) c.length :: .yield c ::
      buildOps bsize size (received + c.length) rest

/-- The payload-relaying part of `buildOps`, before the handshake. -/
def relayOps (bsize size received : Nat) : List (List Nat) → List StreamOp
  | [] => []
  | c :: rest =>
    .select 5 :: .recv bsize (size - received) c.length :: .yield c ::
      relayOps bsize size (received + c.length) rest

/-! ## HTTP outcomes -/

/-- Result of an endpoint handler: a successful JSON/stream response, a
`self.abort(code, msg)`, or an unhandled Python exception. -/
inductive Outcome (α : Type) where
  | ok (code : Nat) (body : α)
  | err (code : Nat) (msg : String)
  | pyError (msg : String)
deriving DecidableEq, Repr

def Outcome.map {α β : Type} (f : α → β) : Outcome α → Outcome β
  | .ok c b => .ok c (f b)
  | .err c m => .err c m
  | .pyError m => .pyError m

/-- The HTTP response produced by `stream_file` on success. The ETag value
involves the wall clock; only its presence is modelled. -/
structure RespModel where
  contentLength : Nat
  attachmentFilename : Option String
  mimetype : String
  run : StreamRun
  cookieFileDownload : Bool
  etagSet : Bool
deriving DecidableEq, Repr

/-- `TaskGetFile.stream_file` (tasks.py lines 253-300). `sockOk` models
whether `bui.client.get_file` returned a socket; `lengthbuf` is what
`socket.recv(8)` returned (`struct.unpack` raises if it is not 8 bytes
long); `events` drives the generator. -/
def stream_file (path filename : Option String) (server : Option String)
    (sockOk : Bool) (lengthbuf : List Nat) (events : List SockEvent) :
    Outcome RespModel :=
  if !sockOk then .err 500 ""
  else if lengthbuf.length ≠ 8 then .pyError "struct.error"
  else
    let length := unpack_uQ lengthbuf
    .ok 200 {
      contentLength := length
      attachmentFilename := filename
      mimetype := "application/zip"
      run := stream length events
      cookieFileDownload := true
      etagSet := true }

/-! ## Task-type table and durable-record bookkeeping -/

/-- The `task_types` table: task name to callback endpoint (the job function
itself is out of scope here). -/
def task_types : List (String × String) :=
  [("restore", ".task_get_file"), ("browse", ".task_do_browse_all"),
   ("delete", ".task_deleted_client")]

/-- The best-effort bookkeeping block shared by `TaskStatus.get` and
`TaskGetFile.get`:

```
if db:
    rec = Task.query.filter_by(uuid=task_id).first()
    if rec:
        try:
            db.session.delete(rec)
            db.session.commit()
        except:
            db.session.rollback()
```

The durable store is the list of record uuids; `dbConf` models `WITH_SQL`
being enabled, `commitOk` whether the commit succeeds (on failure the
rollback leaves the store unchanged). -/
def db_cleanup (dbConf commitOk : Bool) (taskId : String)
    (recs : List String) : List String :=
  if dbConf then
    if recs.contains taskId then
      if commitOk then recs.erase taskId else recs
    else recs
  else recs

/-! ## `TaskStatus.get` — status query -/

structure Location where
  endpoint : String
  taskId : String
  server : Option String
deriving DecidableEq, Repr

structure StatusBody where
  state : String
  location : Option Location
deriving DecidableEq, Repr

structure StatusGetOut where
  outcome : Outcome StatusBody
  dbAfter : List String
  revoked : Bool
deriving DecidableEq, Repr

/-- `TaskStatus.get` (tasks.py lines 100-126). -/
def status_get (taskType taskId : String) (state : TaskState)
    (result : Option TaskResult) (dbConf commitOk : Bool)
    (db0 : List String) : StatusGetOut :=
  match task_types.lookup taskType with
  | none => ⟨.err 400 "", db0, false⟩
  | some callback =>
    if state = .failure then
      ⟨.err 502 (pyStrResult result), db_cleanup dbConf commitOk taskId db0,
       true⟩
    else if state = .success then
      match result with
      | none => ⟨.err 500 "The task did not return anything", db0, false⟩
      | some r =>
        ⟨.ok 200 ⟨state.str, some ⟨callback, taskId, r.server⟩⟩, db0, false⟩
    else ⟨.ok 200 ⟨state.str, none⟩, db0, false⟩

/-! ## `TaskStatus.delete` — cancellation -/

structure CancelOut where
  outcome : Outcome String
  revoked : Bool
deriving DecidableEq, Repr

/-- `TaskStatus.delete` (tasks.py lines 135-153). Note that
`user = task.result.get("user")` dereferences `task.result` before any
state or existence check: when the result is `None` (e.g. a task id that
was never submitted) this raises an `AttributeError`. -/
def status_cancel (taskType : String) (server : Option String)
    (callerName : String) (isAdmin : Bool)
    (result : Option TaskResult) : CancelOut :=
  if (task_types.lookup taskType).isNone then ⟨.err 400 "", false⟩
  else
    match result with
    | none =>
      ⟨.pyError "AttributeError: NoneType object has no attribute get", false⟩
    | some r =>
      if cancel_denied callerName isAdmin r.user r.server server then
        ⟨.err 403 "Unauthorized access", false⟩
      else ⟨.ok 201 "", true⟩

/-! ## `TaskGetFile.get` — artifact fetch -/

/-- The redacted error text of the artifact-fetch failure branch. -/
def restoreGenericError : String :=
  "An error occurred while performing the restoration. " ++
  "Please contact your administrator for further details"

inductive FetchBody where
  /-- `send_file` of the local artifact, `fileDownload` cookie set,
  delete-on-send finalizer registered. -/
  | localFile (path : Option String) (filename : Option String)
      (cookieFileDownload : Bool) (deleteAfterSend : Bool)
  /-- Remote relay response. -/
  | remote (resp : RespModel)
deriving DecidableEq, Repr

structure FetchOut where
  outcome : Outcome FetchBody
  dbAfter : List String
  revoked : Bool
deriving DecidableEq, Repr

/-- `TaskGetFile.get` (tasks.py lines 178-251). `openExc` models the
`try: fh = open(path, "rb") ... except Exception as e` block of the local
branch: `some e` means the open/<code>send_file</code> set-up raised with
`str(e) = e`. -/
def fetch_get (taskId : String) (server : Option String)
    (callerName : String) (isAdmin : Bool)
    (state : TaskState) (result : Option TaskResult)
    (dbConf commitOk : Bool) (db0 : List String)
    (sockOk : Bool) (lengthbuf : List Nat) (events : List SockEvent)
    (openExc : Option String) : FetchOut :=
  if state ≠ .success then
    if state = .failure then
      match result with
      | none =>
        ⟨.pyError "AttributeError: NoneType object has no attribute get",
         db0, false⟩
      | some r =>
        let err := r.error
        let msg := if err != some "encrypted" && !r.admin then
            restoreGenericError
          else pyStrOptS err
        ⟨.err 500 ("Unsuccessful task:\n" ++ msg), db0, false⟩
    else ⟨.err 400 ("Task not processed yet: " ++ state.str), db0, false⟩
  else
    match result with
    | none =>
      ⟨.pyError "AttributeError: NoneType object has no attribute get",
       db0, false⟩
    | some r =>
      if fetch_denied callerName isAdmin r.user r.server server then
        ⟨.err 403 "Unauthorized access", db0, false⟩
      else
        let db1 := db_cleanup dbConf commitOk taskId db0
        if pyTruthy r.server then
          ⟨Outcome.map FetchBody.remote
            (stream_file r.path r.filename r.server sockOk lengthbuf events),
           db1, true⟩
        else
          match openExc with
          | some e => ⟨.err 500 e, db1, true⟩
          | none =>
            ⟨.ok 200 (.localFile r.path r.filename true true), db1, true⟩

/-! ## `TaskDoBrowseAll.get` — tree fetch -/

structure BrowseOut where
  outcome : Outcome (Option String)
  revoked : Bool
deriving DecidableEq, Repr

/-- `TaskDoBrowseAll.get` (tasks.py lines 1048-1067). -/
def browse_get (server : Option String) (callerName : String)
    (state : TaskState) (result : Option TaskResult) : BrowseOut :=
  if state ≠ .success then
    if state = .failure then
      match result with
      | none =>
        ⟨.pyError "AttributeError: NoneType object has no attribute get",
         false⟩
      | some r =>
        ⟨.err 500 ("Unsuccessful task: " ++ pyStrOptS r.error), false⟩
    else ⟨.err 400 ("Task not processed yet: " ++ state.str), false⟩
  else
    match result with
    | none =>
      ⟨.pyError "AttributeError: NoneType object has no attribute get",
       false⟩
    | some r =>
      if browse_denied callerName r.user r.server server then
        ⟨.err 403 "Unauthorized access", false⟩
      else ⟨.ok 200 r.tree, true⟩

/-! ## `TaskDeletedClient.get` — client-deletion result -/

structure DeletedOut where
  outcome : Outcome (Option String)
  revoked : Bool
  cacheAfter : List (String × String)
  extraAfter : Option String
  schedulingForced : Bool
deriving DecidableEq, Repr

/-- Decimal value of a digit list. -/
def digitsVal (cs : List Char) : Nat :=
  cs.foldl (fun n c => n * 10 + (c.toNat - Char.toNat '0')) 0

/-- Models Python `int(str)`: an optional minus sign followed by at least
one decimal digit (whitespace and underscore tolerance is not modelled);
`none` models the raised `ValueError`. -/
def pyInt (s : String) : Option Int :=
  match s.toList with
  | [] => none
  | '-' :: cs =>
    if !cs.isEmpty && cs.all Char.isDigit then some (-(digitsVal cs : Int))
    else none
  | cs =>
    if cs.all Char.isDigit then some (digitsVal cs) else none

/-- `int(session.get("_extra", g.now))` with `ValueError` giving 0: the
stored string parsed as an integer, the integer timestamp `g.now` when the
session key is absent, 0 when the stored string does not parse. -/
def session_extra_int (extra0 : Option String) (now : Int) : Int :=
  match extra0 with
  | none => now
  | some s =>
    match pyInt s with
    | some n => n
    | none => 0

/-- `TaskDeletedClient.get` (tasks.py lines 581-629). The aggregate cache
is the entry list `cache0` (cleared means `[]`), the per-session counter
is `extra0 = session["_extra"]`. -/
def deleted_client_get (server : Option String) (callerName : String)
    (state : TaskState) (result : Option TaskResult)
    (cache0 : List (String × String)) (extra0 : Option String) (now : Int)
    (withCelery : Bool) : DeletedOut :=
  if state ≠ .success then
    if state = .failure then
      match result with
      | none =>
        ⟨.pyError "AttributeError: NoneType object has no attribute get",
         false, cache0, extra0, false⟩
      | some r =>
        ⟨.err 500 ("Unsuccessful task: " ++ pyStrOptS r.error), false,
         cache0, extra0, false⟩
    else
      ⟨.err 400 ("Task not processed yet: " ++ state.str), false, cache0,
       extra0, false⟩
  else
    match result with
    | none =>
      ⟨.pyError "AttributeError: NoneType object has no attribute get",
       false, cache0, extra0, false⟩
    | some r =>
      match r.kwargs with
      | none =>
        ⟨.pyError "AttributeError: NoneType object has no attribute get",
         false, cache0, extra0, false⟩
      | some kw =>
        if deleted_denied callerName r.user r.server server then
          ⟨.err 403 "Unauthorized access", false, cache0, extra0, false⟩
        else if !kw.keepconf then
          ⟨.ok 200 r.res, true, [],
           some (toString (session_extra_int extra0 now + 1)), withCelery⟩
        else ⟨.ok 200 r.res, true, cache0, extra0, false⟩

/-! ## Frame wrappers and revocation semantics -/

/-- `TaskGetFile.get` with the aggregate cache and session counter threaded
through: the handler body never reads or writes either, so they pass
through unchanged. -/
def fetch_get_frame (taskId : String) (server : Option String)
    (callerName : String) (isAdmin : Bool)
    (state : TaskState) (result : Option TaskResult)
    (dbConf commitOk : Bool) (db0 : List String)
    (sockOk : Bool) (lengthbuf : List Nat) (events : List SockEvent)
    (openExc : Option String) (cache0 : List (String × String))
    (extra0 : Option String) :
    FetchOut × List (String × String) × Option String :=
  (fetch_get taskId server callerName isAdmin state result dbConf commitOk
    db0 sockOk lengthbuf events openExc, cache0, extra0)

/-- `TaskDoBrowseAll.get` with the aggregate cache and session counter
threaded through: the handler body never reads or writes either. -/
def browse_get_frame (server : Option String) (callerName : String)
    (state : TaskState) (result : Option TaskResult)
    (cache0 : List (String × String)) (extra0 : Option String) :
    BrowseOut × List (String × String) × Option String :=
  (browse_get server callerName state result, cache0, extra0)

/-- Modelled from the spec: the task queue library's revocation semantics
lives outside this repository (the endpoints only call `task.revoke()`).
Per the spec (sections 2, 3 and 5), revocation releases the handle, and a
later lookup of the same id behaves like a never-submitted id: state
`PENDING` with no result, so fetch attempts on an already-revoked handle
fail cleanly rather than succeed. -/
def lookup_after_revoke : TaskState × Option TaskResult := (.pending, none)

/-- A sample terminal task result (owner "alice", executed locally), used as
a concrete input by counterexamples and witnesses. -/
def baseResult : TaskResult where
  user := some "alice"
  server := none
  path := some "/tmp/bui-a.zip"
  filename := some "a.zip"
  error := none
  admin := false
  tree := some "tree-json"
  res := some "client deleted"
  client := some "c1"
  kwargs := some ⟨false, false, false, false, false⟩
  pystr := "result-object"

/-- A failed-restore result with one stored error detail. -/
def resultDetailA : TaskResult :=
  { baseResult with error := some "disk full", pystr := "detail-one" }

/-- A failed-restore result with another stored error detail. -/
def resultDetailB : TaskResult :=
  { baseResult with error := none, pystr := "detail-two" }

/-! # Theorems -/

/-- Boolean shape of the denial checks: this tautology turns the negated
denial condition into the authorized-iff form. -/
theorem denial_shape : ∀ a t e adm : Bool,
    (!((!a || (t && !e)) && !adm)) = ((a && (!t || e)) || adm) := by
  decide

/-- Boolean shape of the denial checks without the administrator bypass. -/
theorem denial_shape_no_admin : ∀ a t e : Bool,
    (!(!a || (t && !e))) = (a && (!t || e)) := by
  decide

/-- C1 (counterexample): the claim fails on the code in two ways. First,
the code's node conjunct is `origin node unset OR origin equals target`,
not the claimed `target unset OR target equals origin`: for the owner
herself, origin node "node1" and no target node, the code denies while the
claimed predicate authorizes. Second, the predicate is not applied
identically in the three flows: the tree-fetch check has no administrator
bypass, so a non-owner administrator may cancel a task but is denied the
tree fetch of the same task. -/
theorem c1_authorization_counterexample :
    (!cancel_denied "alice" false (some "alice") (some "node1") none) = false
    ∧ spec_authorized "alice" "alice" none (some "node1") false = true
    ∧ (!cancel_denied "bob" true (some "alice") none none) = true
    ∧ (!browse_denied "bob" (some "alice") none none) = false
    ∧ (status_cancel "restore" none "bob" true (some baseResult)).outcome
        = .ok 201 ""
    ∧ (browse_get none "bob" .success (some baseResult)).outcome
        = .err 403 "Unauthorized access" := by
  decide

/-- C1 (amended): the status-cancel and artifact result-fetch flows apply
one and the same predicate, true iff the caller equals the task owner AND
(the task's origin node is unset OR equals the caller's target node), OR
the caller is an administrator; the tree-fetch flow applies only the
owner/node conjunct, with no administrator bypass. -/
theorem c1_authorization_amended (caller user : String) (isAdmin : Bool)
    (dstServer server : Option String) :
    fetch_denied caller isAdmin (some user) dstServer server
      = cancel_denied caller isAdmin (some user) dstServer server
    ∧ (!cancel_denied caller isAdmin (some user) dstServer server)
      = ((caller == user && (!pyTruthy dstServer || dstServer == server))
          || isAdmin)
    ∧ (!browse_denied caller (some user) dstServer server)
      = (caller == user && (!pyTruthy dstServer || dstServer == server)) := by
  refine ⟨rfl, ?_, ?_⟩
  · exact denial_shape (caller == user) (pyTruthy dstServer)
      (dstServer == server) isAdmin
  · exact denial_shape_no_admin (caller == user) (pyTruthy dstServer)
      (dstServer == server)

/-- C2: on a task id that was never submitted the task backend reports
state `PENDING` with result `None`; then the status query returns a plain
200 `{"state": "PENDING"}` (not a not-found-class error), the artifact
fetch returns a 400 error, and the cancel operation dereferences
`task.result.get("user")` on `None` and crashes with an unhandled
`AttributeError`. -/
theorem c2_never_submitted_id :
    (status_cancel "restore" none "alice" false none).outcome
      = .pyError "AttributeError: NoneType object has no attribute get"
    ∧ (status_get "restore" "deadbeef" .pending none true true []).outcome
      = .ok 200 ⟨"PENDING", none⟩
    ∧ (fetch_get "deadbeef" none "alice" false .pending none true true []
        true [] [] none).outcome
      = .err 400 "Task not processed yet: PENDING" := by
  decide

/-! ## Stream-loop lemmas -/

theorem buildOps_eq_relayOps (bsize size : Nat) :
    ∀ (chunks : List (List Nat)) (received : Nat),
      buildOps bsize size received chunks
        = relayOps bsize size received chunks
          ++ [.sendall (pack_uQ 2), .sendall [0x52, 0x45], .close] := by
  intro chunks
  induction chunks with
  | nil => intro received; simp [buildOps, relayOps]
  | cons c rest ih => intro received; simp [buildOps, relayOps, ih]

theorem yieldedBytes_relayOps (bsize size : Nat) :
    ∀ (chunks : List (List Nat)) (received : Nat),
      yieldedBytes (relayOps bsize size received chunks)
        = (chunks.map List.length).sum := by
  intro chunks
  induction chunks with
  | nil => intro received; simp [relayOps, yieldedBytes]
  | cons c rest ih => intro received; simp [relayOps, yieldedBytes] at ih ⊢; simp [ih]

/-- An uninterrupted trace of non-empty chunks whose lengths sum exactly to
the outstanding byte count is consumed in full, and the run ends with the
handshake. -/
theorem streamLoop_data_done (bsize size : Nat) :
    ∀ (chunks : List (List Nat)) (received : Nat),
      (∀ c ∈ chunks, c ≠ []) →
      received + (chunks.map List.length).sum = size →
      streamLoop bsize size (chunks.map SockEvent.data) received
        = ⟨.done chunks, buildOps bsize size received chunks⟩ := by
  intro chunks
  induction chunks with
  | nil =>
    intro received _ hsum
    simp at hsum
    simp [streamLoop, hsum, buildOps]
  | cons c rest ih =>
    intro received hne hsum
    have hc : c ≠ [] := hne c (by simp)
    have hclen : 0 < c.length := List.length_pos.mpr hc
    have hlt : received < size := by
      simp [List.sum_cons] at hsum; omega
    have hce : c.isEmpty = false := by
      cases c with
      | nil => exact absurd rfl hc
      | cons _ _ => rfl
    have hrest : received + c.length + (rest.map List.length).sum = size := by
      simp [List.sum_cons] at hsum; omega
    have ihh := ih (received + c.length)
      (fun d hd => hne d (by simp [hd])) hrest
    simp [streamLoop, hlt, hce, ihh, buildOps]

/-- A stall: when the readable-within-5-seconds wait fails while bytes are
still outstanding, the generator aborts with the 500 timeout error. -/
theorem streamLoop_stall (bsize size : Nat) (rest : List SockEvent) :
    ∀ (chunks : List (List Nat)) (received : Nat),
      received + (chunks.map List.length).sum < size →
      (streamLoop bsize size
          (chunks.map SockEvent.data ++ SockEvent.timeout :: rest)
          received).outcome
        = .aborted 500 "Socket timed-out" := by
  intro chunks
  induction chunks with
  | nil =>
    intro received hlt
    simp at hlt
    simp [streamLoop, hlt]
  | cons c rest' ih =>
    intro received hlt
    have hlt0 : received < size := by
      simp [List.sum_cons] at hlt; omega
    have hrest : received + c.length + (rest'.map List.length).sum < size := by
      simp [List.sum_cons] at hlt; omega
    by_cases hce : c.isEmpty
    · have h0 : c.length = 0 := by
        cases c with
        | nil => rfl
        | cons _ _ => simp [List.isEmpty] at hce
      have ihh := ih received (by omega)
      simp [streamLoop, hlt0, hce, ihh]
    · have ihh := ih (received + c.length) hrest
      simp [streamLoop, hlt0, eq_false_of_ne_true hce, ihh]

/-- Every `recv` of a run is immediately preceded by a 5-second `select`. -/
theorem recvPrecededBySelect_streamLoop (bsize size : Nat) :
    ∀ (events : List SockEvent) (received : Nat),
      recvPrecededBySelect (streamLoop bsize size events received).ops
        = true := by
  intro events
  induction events with
  | nil =>
    intro received
    by_cases hr : received < size <;>
      simp [streamLoop, hr, recvPrecededBySelect]
  | cons e tl ih =>
    intro received
    by_cases hr : received < size
    · cases e with
      | timeout => simp [streamLoop, hr, recvPrecededBySelect]
      | data c =>
        by_cases hce : c.isEmpty
        · simp [streamLoop, hr, hce, recvPrecededBySelect, ih]
        · simp [streamLoop, hr, eq_false_of_ne_true hce,
            recvPrecededBySelect, ih]
    · cases e <;> simp [streamLoop, hr, recvPrecededBySelect]

/-- Every readability wait of a run uses the 5-second bound. -/
theorem selectsBounded_streamLoop (bsize size : Nat) :
    ∀ (events : List SockEvent) (received : Nat),
      selectsBounded (streamLoop bsize size events received).ops = true := by
  intro events
  induction events with
  | nil =>
    intro received
    by_cases hr : received < size <;> simp [streamLoop, hr, selectsBounded]
  | cons e tl ih =>
    intro received
    by_cases hr : received < size
    · cases e with
      | timeout => simp [streamLoop, hr, selectsBounded]
      | data c =>
        by_cases hce : c.isEmpty
        · have := ih received
          simp [streamLoop, hr, hce, selectsBounded] at this ⊢
          exact this
        · have := ih (received + c.length)
          simp [streamLoop, hr, eq_false_of_ne_true hce, selectsBounded]
            at this ⊢
          exact this
    · cases e <;> simp [streamLoop, hr, selectsBounded]

/-- A normal completion never under-delivers: the yielded chunks cover the
outstanding byte count. -/
theorem streamLoop_done_ge (bsize size : Nat) :
    ∀ (events : List SockEvent) (received : Nat) (out : List (List Nat)),
      (streamLoop bsize size events received).outcome = .done out →
      size ≤ received + (out.map List.length).sum := by
  intro events
  induction events with
  | nil =>
    intro received out h
    by_cases hr : received < size
    · simp [streamLoop, hr] at h
    · simp [streamLoop, hr] at h
      subst h
      simp; omega
  | cons e tl ih =>
    intro received out h
    by_cases hr : received < size
    · cases e with
      | timeout => simp [streamLoop, hr] at h
      | data c =>
        by_cases hce : c.isEmpty
        · simp only [streamLoop, hr, if_true, hce] at h
          exact ih received out h
        · simp only [streamLoop, hr, if_true, eq_false_of_ne_true hce,
            Bool.false_eq_true, if_false] at h
          cases houtcome : (streamLoop bsize size tl
              (received + c.length)).outcome with
          | done chunks' =>
            rw [houtcome] at h
            simp at h
            subst h
            have := ih (received + c.length) chunks' houtcome
            simp [List.sum_cons]; omega
          | aborted code msg => rw [houtcome] at h; simp at h
          | starved => rw [houtcome] at h; simp at h
    · cases e <;> simp [streamLoop, hr] at h <;> subst h <;> simp <;> omega

/-- A normal completion never over-delivers beyond what the socket trace
carried. -/
theorem streamLoop_done_le (bsize size : Nat) :
    ∀ (events : List SockEvent) (received : Nat) (out : List (List Nat)),
      (streamLoop bsize size events received).outcome = .done out →
      (out.map List.length).sum ≤ dataTotal events := by
  intro events
  induction events with
  | nil =>
    intro received out h
    by_cases hr : received < size
    · simp [streamLoop, hr] at h
    · simp [streamLoop, hr] at h
      subst h
      simp [dataTotal]
  | cons e tl ih =>
    intro received out h
    by_cases hr : received < size
    · cases e with
      | timeout => simp [streamLoop, hr] at h
      | data c =>
        by_cases hce : c.isEmpty
        · simp only [streamLoop, hr, if_true, hce] at h
          have := ih received out h
          simp [dataTotal] at this ⊢
          omega
        · simp only [streamLoop, hr, if_true, eq_false_of_ne_true hce,
            Bool.false_eq_true, if_false] at h
          cases houtcome : (streamLoop bsize size tl
              (received + c.length)).outcome with
          | done chunks' =>
            rw [houtcome] at h
            simp at h
            subst h
            have := ih (received + c.length) chunks' houtcome
            simp [dataTotal, List.sum_cons] at this ⊢
            omega
          | aborted code msg => rw [houtcome] at h; simp at h
          | starved => rw [houtcome] at h; simp at h
    · cases e <;> simp [streamLoop, hr] at h <;> subst h <;> simp [dataTotal]

/-- Every `recv` of a run requests exactly the loop's fixed chunk size. -/
theorem recvLog_requested_eq (bsize size : Nat) :
    ∀ (events : List SockEvent) (received : Nat),
      ((recvLog (streamLoop bsize size events received).ops).all
        fun p => decide (p.1 = bsize)) = true := by
  intro events
  induction events with
  | nil =>
    intro received
    by_cases hr : received < size <;> simp [streamLoop, hr, recvLog]
  | cons e tl ih =>
    intro received
    by_cases hr : received < size
    · cases e with
      | timeout => simp [streamLoop, hr, recvLog]
      | data c =>
        by_cases hce : c.isEmpty
        · have := ih received
          simp [streamLoop, hr, hce, recvLog, List.filterMap] at this ⊢
          exact this
        · have := ih (received + c.length)
          simp [streamLoop, hr, eq_false_of_ne_true hce, recvLog,
            List.filterMap] at this ⊢
          exact this
    · cases e <;> simp [streamLoop, hr, recvLog]

/-- The first `recv` of a run, when there is one, requests the fixed chunk
size while all outstanding bytes are still expected. -/
theorem recvLog_head_eq (bsize size : Nat)
    (events : List SockEvent) (received : Nat) :
    (recvLog (streamLoop bsize size events received).ops).head?.elim True
      (fun p => p = (bsize, size - received)) := by
  cases events with
  | nil =>
    by_cases hr : received < size <;> simp [streamLoop, hr, recvLog]
  | cons e tl =>
    by_cases hr : received < size
    · cases e with
      | timeout => simp [streamLoop, hr, recvLog]
      | data c =>
        by_cases hce : c.isEmpty
        · simp [streamLoop, hr, hce, recvLog]
        · simp [streamLoop, hr, eq_false_of_ne_true hce, recvLog]
    · cases e <;> simp [streamLoop, hr, recvLog]

/-- C3: in remote-mode delivery, given a sender that transmits an 8-byte
unsigned big-endian length prefix followed by exactly that many payload
bytes (in non-empty chunks), the channel responds with Content-Length equal
to the declared length, yields exactly that many bytes to the HTTP caller,
and after the payload sends the 8-byte big-endian value 2 followed by the
2-byte literal "RE" and closes the connection. -/
theorem c3_remote_relay_protocol (payload : List Nat)
    (chunks : List (List Nat)) (lengthbuf : List Nat)
    (path filename origin : Option String)
    (hjoin : chunks.join = payload)
    (hne : ∀ c ∈ chunks, c ≠ [])
    (hlen : lengthbuf.length = 8)
    (hdecl : unpack_uQ lengthbuf = payload.length) :
    ∃ resp : RespModel,
      stream_file path filename origin true lengthbuf
          (chunks.map SockEvent.data) = .ok 200 resp
      ∧ resp.contentLength = payload.length
      ∧ resp.run.outcome = .done chunks
      ∧ chunks.join.length = payload.length
      ∧ resp.run.ops
          = relayOps (if payload.length < 1024 then payload.length else 1024)
              payload.length 0 chunks
            ++ [.sendall (pack_uQ 2), .sendall [0x52, 0x45], .close]
      ∧ yieldedBytes (relayOps (if payload.length < 1024 then payload.length
            else 1024) payload.length 0 chunks) = payload.length
      ∧ pack_uQ 2 = [0, 0, 0, 0, 0, 0, 0, 2] := by
  have hsum : (chunks.map List.length).sum = payload.length := by
    rw [← hjoin]; exact (List.length_join chunks).symm
  have hrun := streamLoop_data_done
    (if payload.length < 1024 then payload.length else 1024) payload.length
    chunks 0 hne (by simp [hsum])
  refine ⟨{ contentLength := unpack_uQ lengthbuf
            attachmentFilename := filename
            mimetype := "application/zip"
            run := stream (unpack_uQ lengthbuf) (chunks.map SockEvent.data)
            cookieFileDownload := true
            etagSet := true }, ?_, hdecl, ?_, ?_, ?_, ?_, ?_⟩
  · simp [stream_file, hlen]
  · simp [stream, hdecl, hrun]
  · rw [List.length_join, hsum]
  · simp [stream, hdecl, hrun, buildOps_eq_relayOps]
  · rw [yieldedBytes_relayOps, hsum]
  · decide

/-- C3 witness: a sender declaring 5 bytes and delivering them in three
chunks. -/
theorem c3_remote_relay_protocol_witness :
    (([[1, 2], [3], [4, 5]] : List (List Nat)).join = [1, 2, 3, 4, 5]
      ∧ (∀ c ∈ ([[1, 2], [3], [4, 5]] : List (List Nat)), c ≠ [])
      ∧ ([0, 0, 0, 0, 0, 0, 0, 5] : List Nat).length = 8
      ∧ unpack_uQ [0, 0, 0, 0, 0, 0, 0, 5]
          = ([1, 2, 3, 4, 5] : List Nat).length)
    ∧ (∃ resp : RespModel,
        stream_file none (some "a.zip") (some "srv") true
            [0, 0, 0, 0, 0, 0, 0, 5]
            (([[1, 2], [3], [4, 5]] : List (List Nat)).map SockEvent.data)
          = .ok 200 resp
        ∧ resp.contentLength = ([1, 2, 3, 4, 5] : List Nat).length
        ∧ resp.run.outcome = .done [[1, 2], [3], [4, 5]]
        ∧ ([[1, 2], [3], [4, 5]] : List (List Nat)).join.length
            = ([1, 2, 3, 4, 5] : List Nat).length
        ∧ resp.run.ops
            = relayOps (if ([1, 2, 3, 4, 5] : List Nat).length < 1024 then
                  ([1, 2, 3, 4, 5] : List Nat).length else 1024)
                ([1, 2, 3, 4, 5] : List Nat).length 0 [[1, 2], [3], [4, 5]]
              ++ [.sendall (pack_uQ 2), .sendall [0x52, 0x45], .close]
        ∧ yieldedBytes (relayOps
              (if ([1, 2, 3, 4, 5] : List Nat).length < 1024 then
                ([1, 2, 3, 4, 5] : List Nat).length else 1024)
              ([1, 2, 3, 4, 5] : List Nat).length 0 [[1, 2], [3], [4, 5]])
            = ([1, 2, 3, 4, 5] : List Nat).length
        ∧ pack_uQ 2 = [0, 0, 0, 0, 0, 0, 0, 2]) :=
  ⟨⟨by decide, by decide, by decide, by decide⟩,
   c3_remote_relay_protocol [1, 2, 3, 4, 5] [[1, 2], [3], [4, 5]]
     [0, 0, 0, 0, 0, 0, 0, 5] none (some "a.zip") (some "srv")
     (by decide) (by decide) (by decide) (by decide)⟩

/-- C4 (counterexample): the read-size cap is computed once before the loop
(`bsize = min(size, 1024)`) and is not reduced to the remaining byte count
on later iterations. For a declared length of 10 delivered as 5 + 5 bytes,
the second `recv` requests 10 bytes while only 5 remain, so the claim's
"never exceeds the number of expected bytes still remaining" fails (the
1024 cap itself holds). -/
theorem c4_read_size_counterexample :
    recvLog (stream 10 [SockEvent.data [1, 2, 3, 4, 5],
        SockEvent.data [6, 7, 8, 9, 10]]).ops = [(10, 10), (10, 5)]
    ∧ ((recvLog (stream 10 [SockEvent.data [1, 2, 3, 4, 5],
          SockEvent.data [6, 7, 8, 9, 10]]).ops).all
        fun p => decide (p.1 ≤ 1024)) = true
    ∧ ((recvLog (stream 10 [SockEvent.data [1, 2, 3, 4, 5],
          SockEvent.data [6, 7, 8, 9, 10]]).ops).all
        fun p => decide (p.1 ≤ p.2)) = false := by
  decide

/-- C4 (amended): in the remote-relay read loop every single read requests
exactly `min(declared length, 1024)` bytes: the request size is capped at
1024 and never exceeds the declared total length, and the first read's
request does not exceed the bytes still expected, but reads after the
first may request more than the remaining count. -/
theorem c4_read_size_amended (size : Nat) (events : List SockEvent) :
    ((recvLog (stream size events).ops).all
        fun p => decide (p.1 = if size < 1024 then size else 1024)) = true
    ∧ ((recvLog (stream size events).ops).all
        fun p => decide (p.1 ≤ 1024 ∧ p.1 ≤ size)) = true
    ∧ (recvLog (stream size events).ops).head?.elim True
        (fun p => p.1 ≤ p.2) := by
  have h1 := recvLog_requested_eq
    (if size < 1024 then size else 1024) size events 0
  have hb1 : (if size < 1024 then size else 1024) ≤ 1024 := by
    split <;> omega
  have hb2 : (if size < 1024 then size else 1024) ≤ size := by
    split <;> omega
  refine ⟨h1, ?_, ?_⟩
  · rw [List.all_eq_true] at h1 ⊢
    intro p hp
    have hpb := h1 p hp
    simp only [decide_eq_true_eq] at hpb ⊢
    omega
  · have h2 : (recvLog (stream size events).ops).head?.elim True
        (fun p => p = (if size < 1024 then size else 1024, size - 0)) :=
      recvLog_head_eq (if size < 1024 then size else 1024) size events 0
    cases hh : (recvLog (stream size events).ops).head? with
    | none => simp
    | some p =>
      obtain ⟨p1, p2⟩ := p
      rw [hh] at h2
      simp at h2 ⊢
      omega

/-- C5: every socket read of the remote-relay loop is immediately preceded
by a readability wait bounded at 5 seconds; if no data becomes readable
within that bound while bytes are still outstanding, the transfer aborts
with the 500 "Socket timed-out" error; and a normal completion delivers a
body whose byte count equals the announced Content-Length, so no normally
completed body mismatches it. -/
theorem c5_timeout_abort (size : Nat) (chunks out : List (List Nat))
    (rest events : List SockEvent)
    (hshort : (chunks.map List.length).sum < size) :
    recvPrecededBySelect (stream size events).ops = true
    ∧ selectsBounded (stream size events).ops = true
    ∧ (stream size (chunks.map SockEvent.data
        ++ SockEvent.timeout :: rest)).outcome
        = .aborted 500 "Socket timed-out"
    ∧ ((stream size events).outcome = .done out →
        dataTotal events ≤ size → out.join.length = size) := by
  refine ⟨recvPrecededBySelect_streamLoop _ size events 0,
    selectsBounded_streamLoop _ size events 0,
    streamLoop_stall _ size rest chunks 0 (by omega),
    fun hdone htotal => ?_⟩
  have hge := streamLoop_done_ge
    (if size < 1024 then size else 1024) size events 0 out hdone
  have hle := streamLoop_done_le
    (if size < 1024 then size else 1024) size events 0 out hdone
  rw [List.length_join]
  omega

/-- C5 witness: declared length 5, a stalling trace that aborts with 500,
and a completing trace delivering exactly 5 bytes. -/
theorem c5_timeout_abort_witness :
    (([[1, 2]] : List (List Nat)).map List.length).sum < 5
    ∧ (recvPrecededBySelect (stream 5 [SockEvent.data [1, 2, 3],
          SockEvent.data [4, 5]]).ops = true
       ∧ selectsBounded (stream 5 [SockEvent.data [1, 2, 3],
            SockEvent.data [4, 5]]).ops = true
       ∧ (stream 5 (([[1, 2]] : List (List Nat)).map SockEvent.data
            ++ SockEvent.timeout :: [])).outcome
            = .aborted 500 "Socket timed-out"
       ∧ ((stream 5 [SockEvent.data [1, 2, 3],
              SockEvent.data [4, 5]]).outcome
              = .done [[1, 2, 3], [4, 5]] →
            dataTotal [SockEvent.data [1, 2, 3], SockEvent.data [4, 5]] ≤ 5 →
            ([[1, 2, 3], [4, 5]] : List (List Nat)).join.length = 5)) :=
  ⟨by decide,
   c5_timeout_abort 5 [[1, 2]] [[1, 2, 3], [4, 5]] []
     [SockEvent.data [1, 2, 3], SockEvent.data [4, 5]] (by decide)⟩

/-- When bookkeeping is configured, the commit succeeds and the store holds
at most one record for the id, the cleanup block leaves no record for it. -/
theorem db_cleanup_removes (taskId : String) (db0 : List String)
    (hdup : db0.count taskId ≤ 1) :
    taskId ∉ db_cleanup true true taskId db0 := by
  unfold db_cleanup
  simp only [if_true]
  by_cases hmem : taskId ∈ db0
  · have hc : db0.contains taskId = true := List.elem_iff.mpr hmem
    simp only [hc, if_true]
    intro hmem2
    have hpos : 0 < (db0.erase taskId).count taskId :=
      List.count_pos_iff_mem.mpr hmem2
    rw [List.count_erase_self] at hpos
    have hpos0 : 0 < db0.count taskId := List.count_pos_iff_mem.mpr hmem
    omega
  · have hc : db0.contains taskId = false := by simpa using hmem
    simp [hc, hmem]

/-- C6: for a task in `FAILURE` state the status query removes the durable
record for the id (given configured bookkeeping, a successful commit, and a
store without duplicate ids), revokes the handle, and responds 502 with
the error text extracted (`str(task.result)`) from the task result. -/
theorem c6_failure_status_cleanup (taskType taskId callback : String)
    (result : Option TaskResult) (commitOk : Bool) (db0 : List String)
    (hcb : task_types.lookup taskType = some callback)
    (hdup : db0.count taskId ≤ 1) :
    (status_get taskType taskId .failure result true commitOk db0).outcome
      = .err 502 (pyStrResult result)
    ∧ (status_get taskType taskId .failure result true commitOk
        db0).revoked = true
    ∧ (commitOk = true →
        taskId ∉ (status_get taskType taskId .failure result true commitOk
          db0).dbAfter) := by
  refine ⟨?_, ?_, fun hc => ?_⟩
  · simp [status_get, hcb]
  · simp [status_get, hcb]
  · subst hc
    simpa [status_get, hcb] using db_cleanup_removes taskId db0 hdup

/-- C6 witness: a failed restore task with one durable record. -/
theorem c6_failure_status_cleanup_witness :
    (task_types.lookup "restore" = some ".task_get_file"
      ∧ (["t1", "t2"] : List String).count "t1" ≤ 1)
    ∧ ((status_get "restore" "t1" .failure (some baseResult) true true
          ["t1", "t2"]).outcome = .err 502 (pyStrResult (some baseResult))
       ∧ (status_get "restore" "t1" .failure (some baseResult) true true
          ["t1", "t2"]).revoked = true
       ∧ (true = true →
          "t1" ∉ (status_get "restore" "t1" .failure (some baseResult) true
            true ["t1", "t2"]).dbAfter)) :=
  ⟨⟨by decide, by decide⟩,
   c6_failure_status_cleanup "restore" "t1" ".task_get_file"
     (some baseResult) true ["t1", "t2"] (by decide) (by decide)⟩

/-- C7: for a task in `SUCCESS` state with a result payload the status
query revokes nothing and leaves the durable store unchanged, returning the
state together with a location built from the task type's callback endpoint
and the originating node identifier taken from the result; with no usable
result payload it responds 500. -/
theorem c7_success_status_location (taskType taskId callback : String)
    (r : TaskResult) (dbConf commitOk : Bool) (db0 : List String)
    (hcb : task_types.lookup taskType = some callback) :
    status_get taskType taskId .success (some r) dbConf commitOk db0
      = ⟨.ok 200 ⟨"SUCCESS", some ⟨callback, taskId, r.server⟩⟩, db0, false⟩
    ∧ status_get taskType taskId .success none dbConf commitOk db0
      = ⟨.err 500 "The task did not return anything", db0, false⟩ := by
  constructor <;> simp [status_get, hcb, TaskState.str]

/-- C7 witness: a successful browse task keeps its state and yields the
callback location. -/
theorem c7_success_status_location_witness :
    task_types.lookup "browse" = some ".task_do_browse_all"
    ∧ (status_get "browse" "t7" .success (some baseResult) true true ["t7"]
        = ⟨.ok 200 ⟨"SUCCESS", some ⟨".task_do_browse_all", "t7",
            baseResult.server⟩⟩, ["t7"], false⟩
       ∧ status_get "browse" "t7" .success none true true ["t7"]
        = ⟨.err 500 "The task did not return anything", ["t7"], false⟩) :=
  ⟨by decide,
   c7_success_status_location "browse" "t7" ".task_do_browse_all"
     baseResult true true ["t7"] (by decide)⟩

/-- C8 (counterexample): the claim fails on the code. The status-query 502
path sends `str(task.result)` with no redaction at all, so for a
non-administrator caller the response text does depend on the stored error
detail (two tasks differing only in that detail produce different
responses); and on artifact fetch a non-administrator caller still receives
the raw stored error when it equals "encrypted". -/
theorem c8_redaction_counterexample :
    (status_get "restore" "t1" .failure
        (some { baseResult with pystr := "secret-detail-A" })
        false true []).outcome = .err 502 "secret-detail-A"
    ∧ (status_get "restore" "t1" .failure
        (some { baseResult with pystr := "secret-detail-B" })
        false true []).outcome = .err 502 "secret-detail-B"
    ∧ (status_get "restore" "t1" .failure
        (some { baseResult with pystr := "secret-detail-A" })
        false true []).outcome
      ≠ (status_get "restore" "t1" .failure
          (some { baseResult with pystr := "secret-detail-B" })
          false true []).outcome
    ∧ (fetch_get "t1" none "alice" false .failure
        (some { baseResult with error := some "encrypted" })
        false true [] true [] [] none).outcome
      = .err 500 "Unsuccessful task:\nencrypted" := by
  decide

/-- C8 (amended): on artifact fetch of a failed task the 500 error text is
the fixed generic message whenever the result's recorded admin flag is
unset and the stored error differs from the "encrypted" marker — in
particular it is identical across any two such results, whatever their
stored detail; the status-query 502, however, carries the stringified task
result unredacted for every caller. -/
theorem c8_redaction_amended (r1 r2 : TaskResult) (taskId : String)
    (server : Option String) (caller : String) (isAdmin : Bool)
    (dbConf commitOk : Bool) (db0 : List String) (sockOk : Bool)
    (lengthbuf : List Nat) (events : List SockEvent)
    (openExc : Option String) (taskType callback : String)
    (h1 : r1.admin = false) (h2 : r2.admin = false)
    (he1 : r1.error ≠ some "encrypted") (he2 : r2.error ≠ some "encrypted")
    (hcb : task_types.lookup taskType = some callback) :
    (fetch_get taskId server caller isAdmin .failure (some r1) dbConf
        commitOk db0 sockOk lengthbuf events openExc).outcome
      = .err 500 ("Unsuccessful task:\n" ++ restoreGenericError)
    ∧ (fetch_get taskId server caller isAdmin .failure (some r2) dbConf
        commitOk db0 sockOk lengthbuf events openExc).outcome
      = (fetch_get taskId server caller isAdmin .failure (some r1) dbConf
          commitOk db0 sockOk lengthbuf events openExc).outcome
    ∧ (status_get taskType taskId .failure (some r1) dbConf commitOk
        db0).outcome = .err 502 r1.pystr := by
  refine ⟨?_, ?_, ?_⟩
  · simp [fetch_get, h1, he1]
  · simp [fetch_get, h1, h2, he1, he2]
  · simp [status_get, hcb, pyStrResult]

/-- C8 amended witness: two failed restores with different stored details
(a message and a missing detail) produce the identical generic 500 text. -/
theorem c8_redaction_amended_witness :
    (resultDetailA.admin = false
      ∧ resultDetailB.admin = false
      ∧ resultDetailA.error ≠ some "encrypted"
      ∧ resultDetailB.error ≠ some "encrypted"
      ∧ task_types.lookup "restore" = some ".task_get_file")
    ∧ ((fetch_get "t8" none "alice" false .failure (some resultDetailA)
          false true [] true [] [] none).outcome
        = .err 500 ("Unsuccessful task:\n" ++ restoreGenericError)
       ∧ (fetch_get "t8" none "alice" false .failure (some resultDetailB)
          false true [] true [] [] none).outcome
        = (fetch_get "t8" none "alice" false .failure (some resultDetailA)
            false true [] true [] [] none).outcome
       ∧ (status_get "restore" "t8" .failure (some resultDetailA) false
          true []).outcome = .err 502 resultDetailA.pystr) :=
  ⟨⟨by decide, by decide, by decide, by decide, by decide⟩,
   c8_redaction_amended resultDetailA resultDetailB
     "t8" none "alice" false false true [] true [] [] none
     "restore" ".task_get_file"
     (by decide) (by decide) (by decide) (by decide) (by decide)⟩

/-- C9: when a client-delete task completed without the `keepconf` option,
fetching its result clears the aggregate cache and replaces the per-session
counter (whose stored string parses as the integer `n`) with `n + 1`; with
`keepconf` set neither the cache nor the counter changes; and the pure read
endpoints (artifact fetch, tree fetch) never touch either. -/
theorem c9_cache_invalidation (server : Option String) (caller : String)
    (r : TaskResult) (kw : DeleteKwargs) (cache0 : List (String × String))
    (extra0 : Option String) (s : String) (n : Int) (now : Int)
    (withCelery : Bool)
    (taskId2 : String) (server2 : Option String) (caller2 : String)
    (isAdmin2 : Bool) (state2 : TaskState) (result2 : Option TaskResult)
    (dbConf2 commitOk2 : Bool) (db2 : List String) (sockOk2 : Bool)
    (lb2 : List Nat) (ev2 : List SockEvent) (oe2 : Option String)
    (server3 : Option String) (caller3 : String) (state3 : TaskState)
    (result3 : Option TaskResult)
    (hkw : r.kwargs = some kw)
    (hauth : deleted_denied caller r.user r.server server = false)
    (hs : pyInt s = some n) :
    (kw.keepconf = false →
        (deleted_client_get server caller .success (some r) cache0 (some s)
          now withCelery).cacheAfter = []
        ∧ (deleted_client_get server caller .success (some r) cache0
            (some s) now withCelery).extraAfter
          = some (toString (n + 1)))
    ∧ (kw.keepconf = true →
        (deleted_client_get server caller .success (some r) cache0 extra0
          now withCelery).cacheAfter = cache0
        ∧ (deleted_client_get server caller .success (some r) cache0 extra0
            now withCelery).extraAfter = extra0)
    ∧ (fetch_get_frame taskId2 server2 caller2 isAdmin2 state2 result2
        dbConf2 commitOk2 db2 sockOk2 lb2 ev2 oe2 cache0 extra0).2
      = (cache0, extra0)
    ∧ (browse_get_frame server3 caller3 state3 result3 cache0 extra0).2
      = (cache0, extra0) := by
  refine ⟨fun hkeep => ?_, fun hkeep => ?_, rfl, rfl⟩
  · constructor <;>
      simp [deleted_client_get, hkw, hauth, hkeep, session_extra_int, hs]
  · constructor <;>
      simp [deleted_client_get, hkw, hauth, hkeep]

/-- C9 witness: a delete task without `keepconf`, counter at "41", bumped
to "42" with the cache cleared; and the read endpoints left everything
unchanged. -/
theorem c9_cache_invalidation_witness :
    (baseResult.kwargs = some ⟨false, false, false, false, false⟩
      ∧ deleted_denied "alice" baseResult.user baseResult.server none = false
      ∧ pyInt "41" = some 41)
    ∧ (((⟨false, false, false, false, false⟩ : DeleteKwargs).keepconf = false →
        (deleted_client_get none "alice" .success (some baseResult)
          [("k", "v")] (some "41") 100 true).cacheAfter = []
        ∧ (deleted_client_get none "alice" .success (some baseResult)
            [("k", "v")] (some "41") 100 true).extraAfter
          = some (toString ((41 : Int) + 1)))
       ∧ ((⟨false, false, false, false, false⟩ : DeleteKwargs).keepconf = true →
        (deleted_client_get none "alice" .success (some baseResult)
          [("k", "v")] (some "99") 100 true).cacheAfter = [("k", "v")]
        ∧ (deleted_client_get none "alice" .success (some baseResult)
            [("k", "v")] (some "99") 100 true).extraAfter = some "99")
       ∧ (fetch_get_frame "t9" none "bob" false .pending none true true []
            true [] [] none [("k", "v")] (some "99")).2
          = ([("k", "v")], some "99")
       ∧ (browse_get_frame none "bob" .pending none [("k", "v")]
            (some "99")).2 = ([("k", "v")], some "99")) :=
  ⟨⟨by decide, by decide, by decide⟩,
   c9_cache_invalidation none "alice" baseResult
     ⟨false, false, false, false, false⟩ [("k", "v")] (some "99") "41" 41 100
     true "t9" none "bob" false .pending none true true [] true [] [] none
     none "bob" .pending none (by decide) (by decide) (by decide)⟩

/-- C10: in local-mode artifact fetch, once authorization passes the
durable record is removed and the handle revoked before the artifact is
opened: when opening the stream then fails, the 500 error response still
has the handle revoked and the record gone, and retrying the fetch against
the now-revoked handle (which reads as `PENDING` with no result) yields a
400 error, not a successful fetch. -/
theorem c10_revoke_before_open (taskId : String) (server : Option String)
    (caller : String) (isAdmin : Bool) (r : TaskResult) (e : String)
    (commitOk : Bool) (db0 : List String) (sockOk : Bool)
    (lengthbuf : List Nat) (events : List SockEvent)
    (hauth : fetch_denied caller isAdmin r.user r.server server = false)
    (hlocal : pyTruthy r.server = false)
    (hdup : db0.count taskId ≤ 1) (hcommit : commitOk = true) :
    (fetch_get taskId server caller isAdmin .success (some r) true commitOk
        db0 sockOk lengthbuf events (some e)).outcome = .err 500 e
    ∧ (fetch_get taskId server caller isAdmin .success (some r) true
        commitOk db0 sockOk lengthbuf events (some e)).revoked = true
    ∧ taskId ∉ (fetch_get taskId server caller isAdmin .success (some r)
        true commitOk db0 sockOk lengthbuf events (some e)).dbAfter
    ∧ (fetch_get taskId server caller isAdmin lookup_after_revoke.1
        lookup_after_revoke.2 true commitOk
        (fetch_get taskId server caller isAdmin .success (some r) true
          commitOk db0 sockOk lengthbuf events (some e)).dbAfter
        sockOk lengthbuf events (some e)).outcome
      = .err 400 "Task not processed yet: PENDING" := by
  subst hcommit
  refine ⟨?_, ?_, ?_, ?_⟩
  · simp [fetch_get, hauth, hlocal]
  · simp [fetch_get, hauth, hlocal]
  · simpa [fetch_get, hauth, hlocal]
      using db_cleanup_removes taskId db0 hdup
  · simp [fetch_get, lookup_after_revoke, TaskState.str]

/-- C10 witness: a local restore artifact whose open fails with a
filesystem error. -/
theorem c10_revoke_before_open_witness :
    (fetch_denied "alice" false baseResult.user baseResult.server none
        = false
      ∧ pyTruthy baseResult.server = false
      ∧ (["t10"] : List String).count "t10" ≤ 1
      ∧ true = true)
    ∧ ((fetch_get "t10" none "alice" false .success (some baseResult) true
          true ["t10"] true [] [] (some "No such file")).outcome
        = .err 500 "No such file"
       ∧ (fetch_get "t10" none "alice" false .success (some baseResult)
          true true ["t10"] true [] [] (some "No such file")).revoked = true
       ∧ "t10" ∉ (fetch_get "t10" none "alice" false .success
          (some baseResult) true true ["t10"] true [] []
          (some "No such file")).dbAfter
       ∧ (fetch_get "t10" none "alice" false lookup_after_revoke.1
          lookup_after_revoke.2 true true
          (fetch_get "t10" none "alice" false .success (some baseResult)
            true true ["t10"] true [] [] (some "No such file")).dbAfter
          true [] [] (some "No such file")).outcome
        = .err 400 "Task not processed yet: PENDING") :=
  ⟨⟨by decide, by decide, by decide, rfl⟩,
   c10_revoke_before_open "t10" none "alice" false baseResult
     "No such file" true ["t10"] true [] [] (by decide) (by decide)
     (by decide) rfl⟩

end BurpUI
